import Mathlib

set_option autoImplicit false

/-!
Verification development for the logistics Telegram bot
(`bot.py`, `utils.py`, `report_generator.py`).

Time model: the display time zone (`Asia/Ashgabat`) is a fixed UTC offset
with no daylight-saving transitions, so local civil time advances uniformly.
A parsed timestamp is represented by its number of minutes since a fixed
local epoch (1970-01-01 00:00 local); Python's `.date()` on such a local
datetime is extraction of the calendar-day number, i.e. division by 1440.

The ISO-8601 parser (`datetime.fromisoformat` plus `astimezone`) is an
external library.  A raw stored field is therefore modelled as the raw
string together with the parse outcome the library produces for it:
`some t` when the string parses to local time `t`, `none` when the parser
raises (the code catches that exception).
-/

deriving instance DecidableEq for Except

namespace LogisticsBot

/-- Minutes since the local epoch, in the fixed display time zone. -/
abbrev LocalMinutes := Nat

/-- Python `dt.date()` for a local datetime: the calendar-day number. -/
def dateOf (t : LocalMinutes) : Nat := t / 1440

/-- A raw timestamp field as the code sees it: the raw string and the
outcome of the external ISO parser on its Z-normalized form (every
consumer first runs `date_str.replace('Z', '+00:00')` and parses the
result; `some t` = parses to local time `t`; `none` = the parser raises,
which the code catches).  An absent (SQL `NULL` / Python `None`) field
is `Option.none` one level up. -/
structure RawTs where
  raw : String
  parsed : Option LocalMinutes
deriving DecidableEq, Repr

/-- Python `'Z' in date_str` for the one-character pattern: whether the
string contains the character Z. -/
def containsZ (s : String) : Bool := s.data.any (fun c => c = 'Z')

/-- Python `date_str.replace('Z', '+00:00')`: every occurrence of the
one-character pattern Z replaced by "+00:00". -/
def replaceZ (s : String) : String :=
  ⟨s.data.flatMap (fun c => if c = 'Z' then "+00:00".data else [c])⟩

/-- The string the `try` block parses and the `except` branch slices:
the input after the conditional rebinding
`if 'Z' in date_str: date_str = date_str.replace('Z', '+00:00')`. -/
def zNormalized (s : String) : String := if containsZ s then replaceZ s else s

/-- Day-number → (year, month, day) in the proleptic Gregorian calendar,
for day numbers counted from 1970-01-01 (the standard civil-from-days
algorithm, used by `strftime` rendering). -/
def civilFromDays (z : Nat) : Nat × Nat × Nat :=
  let z' := z + 719468
  let era := z' / 146097
  let doe := z' % 146097
  let yoe := (doe - doe / 1460 + doe / 36524 - doe / 146096) / 365
  let y := yoe + era * 400
  let doy := doe - (365 * yoe + yoe / 4 - yoe / 100)
  let mp := (5 * doy + 2) / 153
  let d := doy - (153 * mp + 2) / 5 + 1
  let m := if mp < 10 then mp + 3 else mp - 9
  (if m ≤ 2 then y + 1 else y, m, d)

/-- Zero-padding to two digits, as `%d` / `%m` do. -/
def pad2 (n : Nat) : String := if n < 10 then "0" ++ toString n else toString n

/-- Zero-padding to four digits, as `%Y` does. -/
def pad4 (n : Nat) : String :=
  if n < 10 then "000" ++ toString n
  else if n < 100 then "00" ++ toString n
  else if n < 1000 then "0" ++ toString n
  else toString n

/-- `dt.strftime('%d.%m.%Y')` on a local datetime. -/
def strftime_dmy (t : LocalMinutes) : String :=
  let c := civilFromDays (dateOf t)
  pad2 c.2.2 ++ "." ++ pad2 c.2.1 ++ "." ++ pad4 c.1

/-- The sentinel returned for an absent date ("не указана"). -/
def sentinelDate : String := "не указана"

/-- `utils.format_date`.  Source:
`if not date_str: return "не указана"`; then inside `try`:
`if 'Z' in date_str: date_str = date_str.replace('Z', '+00:00')`,
`dt = fromisoformat(date_str).astimezone(TIMEZONE); return dt.strftime('%d.%m.%Y')`;
`except: return date_str[:10] if date_str else "не указана"`.
The `try` block rebinds `date_str`, so the `except` branch slices the
Z-normalized string, not the original.  The outer `Option` is Python
`None`; empty string is falsy in Python. -/
def format_date (date_str : Option RawTs) : String :=
  match date_str with
  | none => sentinelDate
  | some ts =>
    if ts.raw = "" then sentinelDate
    else
      match ts.parsed with
      | some t => strftime_dmy t
      | none =>
        if zNormalized ts.raw = "" then sentinelDate
        else (zNormalized ts.raw).take 10

/-- `utils.calculate_days_until`.  Source:
`if not date_str: return None`; then
`try: target = fromisoformat(...).astimezone(TIMEZONE).date();
today = datetime.now(TIMEZONE).date(); return (target - today).days`;
`except: return None`.  `now` is the current local instant. -/
def calculate_days_until (date_str : Option RawTs) (now : LocalMinutes) : Option Int :=
  match date_str with
  | none => none
  | some ts =>
    if ts.raw = "" then none
    else
      match ts.parsed with
      | some t => some ((dateOf t : Int) - (dateOf now : Int))
      | none => none

/-- `utils.status_to_emoji`: the seven-entry dictionary with
`.get(status, '📦')` default. -/
def status_to_emoji (status : String) : String :=
  if status = "New" then "🆕"
  else if status = "In Progress CHN" then "🇨🇳"
  else if status = "In Transit CHN-IR" then "🚢"
  else if status = "In Progress IR" then "🇮🇷"
  else if status = "In Transit IR-TKM" then "🚛"
  else if status = "Completed" then "✅"
  else if status = "Cancelled" then "❌"
  else "📦"

/-- `LogisticsBot.status_emojis` (the dictionary duplicated inside
`bot.py`), looked up as `self.status_emojis.get(status, '📦')`. -/
def statusEmojisGet (status : String) : String :=
  if status = "New" then "🆕"
  else if status = "In Progress CHN" then "🇨🇳"
  else if status = "In Transit CHN-IR" then "🚢"
  else if status = "In Progress IR" then "🇮🇷"
  else if status = "In Transit IR-TKM" then "🚛"
  else if status = "Completed" then "✅"
  else if status = "Cancelled" then "❌"
  else "📦"

/-- The seven status values enumerated in the dictionaries. -/
def knownStatuses : List String :=
  ["New", "In Progress CHN", "In Transit CHN-IR", "In Progress IR",
   "In Transit IR-TKM", "Completed", "Cancelled"]

/-! ## `bot.py`: data model, urgency selection, registry and dispatcher -/

/-- A Telegram chat identifier (may be negative for group chats). -/
abbrev ChatId := Int

/-- A `cloud_orders` record, restricted to the fields the verified code
touches.  Python reads fields with `dict.get(key, default)`; the
`order_number` and `client_name` fields are `Option String` so the
`'N/A'` default stays explicit.  `status` is present on every record
(data-model invariant); `eta_date` is `none` for SQL `NULL`. -/
structure Order where
  order_number : Option String
  client_name : Option String
  status : String
  eta_date : Option RawTs
deriving DecidableEq, Repr

/-- The backend filter composed by `/urgent` (bot.py 828–833) and by the
dispatcher's urgency query (bot.py 1098–1103):
`.neq('status','Completed').neq('status','Cancelled').not_.is_('eta_date','null')`.
Filter execution belongs to the external backend; the composed predicate
is taken from the source. -/
def queryNonTerminalWithEta (orders : List Order) : List Order :=
  orders.filter (fun o =>
    decide (o.status ≠ "Completed" ∧ o.status ≠ "Cancelled" ∧ o.eta_date ≠ none))

/-- The selection loop of `/urgent` (bot.py 836–847): for each order with
a truthy `eta_date`, parse it (`try`), compute
`days_left = (eta_date.date() - now.date()).days`, and append
`(order, days_left)` when `0 <= days_left <= 3`; a parse failure is
swallowed by `except: pass`.  An empty string is falsy for `if eta:`. -/
def urgentSelect (all_orders : List Order) (now : LocalMinutes) : List (Order × Int) :=
  all_orders.filterMap (fun order =>
    match order.eta_date with
    | none => none
    | some eta =>
      if eta.raw = "" then none
      else
        match eta.parsed with
        | none => none
        | some t =>
          let days_left : Int := (dateOf t : Int) - (dateOf now : Int)
          if 0 ≤ days_left ∧ days_left ≤ 3 then some (order, days_left) else none)

/-- The urgent-order loop of `/report` (bot.py 659–669): identical
arithmetic, but run over the unfiltered `cloud_orders` snapshot (the
`/report` query has no status or null filter). -/
def reportUrgentOrders (orders : List Order) (now : LocalMinutes) : List Order :=
  orders.filterMap (fun order =>
    match order.eta_date with
    | none => none
    | some eta =>
      if eta.raw = "" then none
      else
        match eta.parsed with
        | none => none
        | some t =>
          let days_left : Int := (dateOf t : Int) - (dateOf now : Int)
          if 0 ≤ days_left ∧ days_left ≤ 3 then some order else none)

/-- Reminder wording (bot.py 1117–1125), selected by `days_left`. -/
def reminderMessage (order : Order) (days_left : Int) : String :=
  let order_num := order.order_number.getD "N/A"
  let client := order.client_name.getD "N/A"
  if days_left = 0 then
    "⏰ **СЕГОДНЯ ETA!**\nЗаказ " ++ order_num ++ " (" ++ client ++ ") должен прибыть сегодня!"
  else if days_left = 1 then
    "⚠️ **ЗАВТРА ETA!**\nЗаказ " ++ order_num ++ " (" ++ client ++ ") прибывает завтра!"
  else
    "📅 **СКОРО ETA (" ++ toString days_left ++ " дня)**\nЗаказ " ++ order_num ++
      " (" ++ client ++ ")"

/-- The dispatcher's urgency loop (bot.py 1108–1129): over the urgency
query's rows, parse the ETA (`try`/`except: pass`), and when
`days_left in [3, 2, 1, 0]` append one composed reminder message. -/
def urgentNotifications (all_orders : List Order) (now : LocalMinutes) : List String :=
  all_orders.filterMap (fun order =>
    match order.eta_date with
    | none => none
    | some eta =>
      if eta.raw = "" then none
      else
        match eta.parsed with
        | none => none
        | some t =>
          let days_left : Int := (dateOf t : Int) - (dateOf now : Int)
          if days_left = 3 ∨ days_left = 2 ∨ days_left = 1 ∨ days_left = 0 then
            some (reminderMessage order days_left)
          else none)

/-- Status-change notification for one changed order (bot.py 1135–1140). -/
def changedOrderMessage (order : Order) : String :=
  let order_num := order.order_number.getD "N/A"
  let status := order.status
  let emoji := statusEmojisGet status
  emoji ++ " **ОБНОВЛЕН ЗАКАЗ " ++ order_num ++ "**\nСтатус: " ++ status

/-- One attempted delivery: a `bot.send_message(chat_id, text)` call. -/
structure Delivery where
  message : String
  chat_id : ChatId
deriving DecidableEq, Repr

/-- The dispatcher's nested delivery loops (bot.py 1131–1159): for each
composed message, for each subscriber, one `send_message` call inside
`try/except`.  A raising send — modelled by the oracle `send` returning
`false` — is caught and only skips `notifications_sent += 1`; the loops
continue.  Returns the attempted `(message, chat_id)` calls in order,
and the success count. -/
def sendLoop (send : ChatId → String → Bool) (msgs : List String) (subs : List ChatId) :
    List Delivery × Nat :=
  msgs.foldl (fun acc m =>
    subs.foldl (fun acc2 c =>
      (acc2.1 ++ [⟨m, c⟩], if send c m then acc2.2 + 1 else acc2.2)) acc) ([], 0)

/-- Result of one backend query; `.error` models the query raising, which
the cycle's outer `try/except` catches. -/
abbrev QueryResult (α : Type) := Except Unit α

/-- Whether a query succeeded. -/
def QueryResult.succeeded {α : Type} : QueryResult α → Bool
  | .ok _ => true
  | .error _ => false

/-- The four backend queries of one dispatcher cycle (bot.py 1073–1103).
The changed-container and changed-task queries are issued, but their rows
are never used afterwards — only their success or failure matters. -/
structure CycleQueries where
  changed_orders : QueryResult (List Order)
  changed_containers : QueryResult Unit
  changed_tasks : QueryResult Unit
  urgent_orders : QueryResult (List Order)

/-- All four backend queries of the cycle succeeded. -/
def CycleQueries.allOk (q : CycleQueries) : Bool :=
  q.changed_orders.succeeded && q.changed_containers.succeeded &&
    q.changed_tasks.succeeded && q.urgent_orders.succeeded

/-- Observable outcome of one dispatcher cycle. -/
structure CycleResult where
  last_check_time : LocalMinutes
  attempts : List Delivery
  notifications_sent : Nat
deriving Repr

/-- `LogisticsBot.check_database_changes` (bot.py 1065–1170), one cycle:
capture `now`; run the four backend queries; compose one message per
changed order and one reminder per discrete urgency point; deliver every
message to every subscriber; set `last_check_time = now`.  The whole body
sits in one `try/except`, so a raising query aborts the cycle before the
watermark assignment; delivery failures are caught inside the loops and
reach the assignment.  (Sequential model: the subscriber list is fixed for
the duration of the cycle; concurrent registry mutation is treated
separately by the live-set iteration model below.) -/
def check_database_changes (now : LocalMinutes) (last_check_time : LocalMinutes)
    (q : CycleQueries) (subscribers : List ChatId) (send : ChatId → String → Bool) :
    CycleResult :=
  match q.changed_orders, q.changed_containers, q.changed_tasks, q.urgent_orders with
  | .ok changed_orders, .ok _, .ok _, .ok all_orders =>
    let urgent_list := urgentNotifications all_orders now
    let msgs := changed_orders.map changedOrderMessage ++ urgent_list
    let r := sendLoop send msgs subscribers
    { last_check_time := now, attempts := r.1, notifications_sent := r.2 }
  | _, _, _, _ =>
    { last_check_time := last_check_time, attempts := [], notifications_sent := 0 }

/-- `/subscribe` (bot.py 889–905): `chat_id` is added only when absent. -/
def subscribe_command (subscribers : Finset ChatId) (chat_id : ChatId) : Finset ChatId :=
  if chat_id ∈ subscribers then subscribers else insert chat_id subscribers

/-- `/unsubscribe` (bot.py 907–916): `chat_id` is removed only when present. -/
def unsubscribe_command (subscribers : Finset ChatId) (chat_id : ChatId) : Finset ChatId :=
  if chat_id ∈ subscribers then subscribers.erase chat_id else subscribers

/-- A registry mutation another handler may perform while the dispatcher
is suspended at an `await` inside its delivery loop. -/
inductive RegistryMut where
  | sub (chat_id : ChatId)
  | unsub (chat_id : ChatId)
deriving DecidableEq, Repr

/-- Apply one concurrent handler action to the live registry.  The live
set is represented here as its member list in internal iteration order
(no duplicates): the `/start`"/"`/subscribe` handlers add the id only
when absent, `/unsubscribe` removes it only when present. -/
def applyRegistryMut (live : List ChatId) : RegistryMut → List ChatId
  | .sub i => if i ∈ live then live else live ++ [i]
  | .unsub i => if i ∈ live then live.erase i else live

/-- CPython semantics of `for chat_id in subscribers:` over the live
module-level set with a body that awaits (bot.py 1143–1149 and 1153–1159):
after each yielded element the body suspends, and another handler may
mutate the set (`sched` lists that mutation, if any, per suspension); the
following `next()` call raises `RuntimeError: Set changed size during
iteration` when the set's size differs from its size at iterator
creation.  (A size-preserving mutation is a no-op under the guarded
handlers, so iterating the creation-time element order is exact.)
`.ok` returns the identifiers the loop delivered to; `.error` is the
raised `RuntimeError`, which the dispatcher's outer `try/except` then
catches, aborting the cycle before the watermark assignment. -/
def iterateLiveSetAux (size0 : Nat) :
    List ChatId → List ChatId → List (Option RegistryMut) → Except Unit (List ChatId)
  | [], _, _ => .ok []
  | c :: rest, live, sched =>
    let live' := match sched.head? with
      | some (some m) => applyRegistryMut live m
      | _ => live
    if live'.length ≠ size0 then .error ()
    else
      match iterateLiveSetAux size0 rest live' sched.tail with
      | .ok delivered => .ok (c :: delivered)
      | .error e => .error e

/-- Iterate the live subscriber set under a schedule of concurrent
mutations, from its iteration order at iterator creation. -/
def iterateLiveSet (subscribers : List ChatId) (sched : List (Option RegistryMut)) :
    Except Unit (List ChatId) :=
  iterateLiveSetAux subscribers.length subscribers subscribers sched

/-! ## Display groups and sample records -/

/-- The `dueToday` display group (`days_left == 0`, shown "СЕГОДНЯ")
over the selection produced by `/urgent`. -/
def dueTodayGroup (sel : List (Order × Int)) : List (Order × Int) :=
  sel.filter (fun p => decide (p.2 = 0))

/-- The `dueSoon` display group (`0 < days_left <= 3`) over the selection
produced by `/urgent`. -/
def dueSoonGroup (sel : List (Order × Int)) : List (Order × Int) :=
  sel.filter (fun p => decide (0 < p.2 ∧ p.2 ≤ 3))

/-- Day 100 of the local calendar, 08:00 local time. -/
def now0 : LocalMinutes := 100 * 1440 + 480

/-- A Completed order whose ETA parses to day 101 — tomorrow relative to
`now0`. -/
def orderCompletedTomorrow : Order :=
  { order_number := some "ORD-1", client_name := some "ACME",
    status := "Completed",
    eta_date := some ⟨"2024-04-11T00:00:00Z", some (101 * 1440)⟩ }

/-- A non-terminal order whose ETA parses to day 99 — one day overdue
relative to `now0`. -/
def orderOverdueYesterday : Order :=
  { order_number := some "ORD-2", client_name := some "Globex",
    status := "New",
    eta_date := some ⟨"2024-04-09T00:00:00Z", some (99 * 1440)⟩ }

/-- A non-terminal order with no ETA set. -/
def orderNoEta : Order :=
  { order_number := some "ORD-3", client_name := some "Initech",
    status := "In Progress CHN", eta_date := none }

end LogisticsBot

namespace LogisticsBot

/-! ## Claim theorems -/

/-- C10: the status-to-glyph dictionary duplicated inside `bot.py`
(`LogisticsBot.status_emojis`, read with `.get(status, '📦')`) is
extensionally equal to the utility `status_to_emoji`: every status
string yields the same glyph under both. -/
theorem c10_status_emoji_refinement (status : String) :
    statusEmojisGet status = status_to_emoji status := rfl

/-- C4: `calculate_days_until` returns `none` for absent input and for
unparseable input; for parseable input it is date-only subtraction
(target date minus today) in the fixed display zone; hence for a
timestamp exactly 24 hours (1440 minutes) ahead of the current instant
the result is `1` at any time of day. -/
theorem c4_calculate_days_until (now t : LocalMinutes) (raw : String) (hraw : raw ≠ "") :
    calculate_days_until none now = none ∧
    calculate_days_until (some ⟨raw, none⟩) now = none ∧
    calculate_days_until (some ⟨raw, some t⟩) now
      = some ((dateOf t : Int) - (dateOf now : Int)) ∧
    calculate_days_until (some ⟨raw, some (now + 1440)⟩) now = some 1 := by
  have hd : dateOf (now + 1440) = dateOf now + 1 := Nat.add_div_right now (by norm_num)
  refine ⟨rfl, ?_, ?_, ?_⟩
  · simp [calculate_days_until, hraw]
  · simp [calculate_days_until, hraw]
  · simp only [calculate_days_until, hd]
    simp [hraw]

/-- Witness for `c4_calculate_days_until` at the concrete instant `now0`. -/
theorem c4_witness :
    "2024-04-11T08:00:00+05:00" ≠ "" ∧
    calculate_days_until (some ⟨"2024-04-11T08:00:00+05:00", some (now0 + 1440)⟩) now0
      = some 1 :=
  ⟨by decide,
   (c4_calculate_days_until now0 0 "2024-04-11T08:00:00+05:00" (by decide)).2.2.2⟩

/-- C6: subscriber-registry laws of `/subscribe` and `/unsubscribe`:
after adding an id it is a member; after removing it it is not; adding
twice yields the same registry as adding once (idempotence); removing an
absent id leaves the registry unchanged. -/
theorem c6_subscriber_registry (subs : Finset ChatId) (i : ChatId) :
    i ∈ subscribe_command subs i ∧
    i ∉ unsubscribe_command subs i ∧
    subscribe_command (subscribe_command subs i) i = subscribe_command subs i ∧
    (i ∉ subs → unsubscribe_command subs i = subs) := by
  refine ⟨?_, ?_, ?_, fun h => ?_⟩
  · by_cases h : i ∈ subs <;> simp [subscribe_command, h]
  · by_cases h : i ∈ subs <;> simp [unsubscribe_command, h]
  · by_cases h : i ∈ subs <;> simp [subscribe_command, h]
  · simp [unsubscribe_command, h]

/-- Witness for `c6_subscriber_registry` on the empty registry and id 7. -/
theorem c6_witness :
    (7 : ChatId) ∈ subscribe_command ∅ 7 ∧
    (7 : ChatId) ∉ unsubscribe_command ∅ 7 ∧
    subscribe_command (subscribe_command ∅ 7) 7 = subscribe_command ∅ 7 ∧
    unsubscribe_command ∅ 7 = ∅ := by
  have h := c6_subscriber_registry ∅ 7
  exact ⟨h.1, h.2.1, h.2.2.1, h.2.2.2 (by simp)⟩

/-- Helper: replacing Z by "+00:00" never empties a non-empty string. -/
theorem replaceZ_ne_empty (s : String) (h : s ≠ "") : replaceZ s ≠ "" := by
  intro he
  have hd : (replaceZ s).data = ("" : String).data := congrArg String.data he
  rcases hs : s.data with _ | ⟨c, rest⟩
  · exact h (String.ext hs)
  · rw [replaceZ] at hd
    simp only [hs, List.flatMap_cons] at hd
    rw [List.append_eq_nil] at hd
    by_cases hc : c = 'Z'
    · rw [if_pos hc] at hd
      exact absurd hd.1 (by decide)
    · rw [if_neg hc] at hd
      exact absurd hd.1 (by simp)

/-- C7 fails on the code: the `try` block rebinds
`date_str = date_str.replace('Z', '+00:00')` before parsing, and the
`except` branch slices the rebound string, so an unparseable input with
a Z among its first 10 characters does not come back as its own
10-character head: `"Zebra-day!"` yields `"+00:00ebra"`, not
`"Zebra-day!"`. -/
theorem c7_counterexample :
    format_date (some ⟨"Zebra-day!", none⟩) = "+00:00ebra" ∧
    "Zebra-day!".take 10 = "Zebra-day!" ∧
    format_date (some ⟨"Zebra-day!", none⟩) ≠ "Zebra-day!".take 10 := by decide

/-- C7 (amended): `format_date` renders a parseable timestamp as
`DD.MM.YYYY` in the fixed display zone and returns the sentinel for
absent (or empty) input; for unparseable non-empty input it returns,
without raising, the first 10 characters of the string obtained by the
pre-parse rebinding that replaces every Z with "+00:00" — which is the
first 10 characters of the raw string itself whenever the raw string
contains no Z; on `"bad-date"` (Z-free and shorter than 10) it returns
`"bad-date"` as-is. -/
theorem c7_format_date (raw : String) (p : Option LocalMinutes) (t : LocalMinutes)
    (hraw : raw ≠ "") :
    format_date none = sentinelDate ∧
    format_date (some ⟨"", p⟩) = sentinelDate ∧
    format_date (some ⟨raw, some t⟩) = strftime_dmy t ∧
    format_date (some ⟨raw, none⟩) = (zNormalized raw).take 10 ∧
    (containsZ raw = false → format_date (some ⟨raw, none⟩) = raw.take 10) ∧
    format_date (some ⟨"bad-date", none⟩) = "bad-date" ∧
    format_date (some ⟨"January 5, 2024 at noon", none⟩) = "January 5," ∧
    format_date (some ⟨"Zebra-day!", none⟩) = "+00:00ebra" ∧
    format_date (some ⟨"2024-03-05T10:00:00+05:00", some (19787 * 1440 + 600)⟩)
      = "05.03.2024" := by
  have hz : zNormalized raw ≠ "" := by
    rw [zNormalized]
    by_cases hcz : containsZ raw
    · rw [if_pos hcz]
      exact replaceZ_ne_empty raw hraw
    · rw [if_neg hcz]
      exact hraw
  refine ⟨rfl, rfl, ?_, ?_, fun hcz => ?_, by decide, by decide, by decide, by decide⟩
  · simp [format_date, hraw]
  · simp [format_date, hraw, hz]
  · simp [format_date, hraw, hz, zNormalized, hcz]

/-- Witness for `c7_format_date` at `raw = "bad-date"` (Z-free). -/
theorem c7_witness :
    "bad-date" ≠ "" ∧
    containsZ "bad-date" = false ∧
    format_date none = sentinelDate ∧
    format_date (some ⟨"", none⟩) = sentinelDate ∧
    format_date (some ⟨"bad-date", some 0⟩) = strftime_dmy 0 ∧
    format_date (some ⟨"bad-date", none⟩) = (zNormalized "bad-date").take 10 ∧
    format_date (some ⟨"bad-date", none⟩) = "bad-date".take 10 ∧
    format_date (some ⟨"bad-date", none⟩) = "bad-date" := by
  have h := c7_format_date "bad-date" none 0 (by decide)
  exact ⟨by decide, by decide, h.1, h.2.1, h.2.2.1, h.2.2.2.1,
    h.2.2.2.2.1 (by decide), h.2.2.2.2.2.1⟩

/-- C8: `status_to_emoji` is total over status strings: the seven known
statuses map to pairwise distinct glyphs, none of which is the default
'📦', and every other string maps to the default glyph. -/
theorem c8_status_glyph_total (s : String) (hs : s ∉ knownStatuses) :
    (knownStatuses.map status_to_emoji).Nodup ∧
    (∀ g ∈ knownStatuses.map status_to_emoji, g ≠ "📦") ∧
    status_to_emoji s = "📦" := by
  refine ⟨by decide, by decide, ?_⟩
  simp only [knownStatuses, List.mem_cons, List.not_mem_nil, or_false, not_or] at hs
  obtain ⟨h1, h2, h3, h4, h5, h6, h7⟩ := hs
  simp [status_to_emoji, h1, h2, h3, h4, h5, h6, h7]

/-- Witness for `c8_status_glyph_total` at the unknown status "Shipped". -/
theorem c8_witness :
    "Shipped" ∉ knownStatuses ∧ status_to_emoji "Shipped" = "📦" :=
  ⟨by decide, (c8_status_glyph_total "Shipped" (by decide)).2.2⟩

/-- C9 (code-bug evidence): the dispatcher's `for chat_id in subscribers:`
iterates the live module-level set. With no concurrent mutation the loop
delivers to both members of the two-element registry; but a subscribe of
a third id — or an unsubscribe of a member — arriving at a suspension
point inside the loop changes the set's size, and the next iteration step
raises `RuntimeError: Set changed size during iteration`, breaking the
iteration. The snapshot (copy-on-read) enumeration promised by the spec
would deliver to the two original members unaffected in all three runs. -/
theorem c9_live_set_iteration :
    iterateLiveSet [1, 2] [] = .ok [1, 2] ∧
    iterateLiveSet [1, 2] [some (.sub 3)] = .error () ∧
    iterateLiveSet [1, 2] [none, some (.unsub 1)] = .error () := by decide

/-- C2: the watermark `last_check_time` becomes the `now` captured at
cycle start exactly when all four backend queries succeed — regardless of
which deliveries fail, since the delivery oracle is arbitrary — and stays
unchanged when any query fails; an aborted cycle attempts no deliveries. -/
theorem c2_watermark_advance (now last : LocalMinutes) (q : CycleQueries)
    (subs : List ChatId) (send : ChatId → String → Bool) :
    ((check_database_changes now last q subs send).last_check_time
        = if q.allOk then now else last) ∧
    (q.allOk = false → (check_database_changes now last q subs send).attempts = []) := by
  obtain ⟨co | co, cc | cc, ct | ct, uo | uo⟩ := q <;>
    simp [check_database_changes, CycleQueries.allOk, QueryResult.succeeded]

/-- Helper: the inner delivery loop appends one attempt per subscriber to
the accumulator, whatever the send outcomes. -/
theorem sendLoop_inner_fst (send : ChatId → String → Bool) (m : String) :
    ∀ (subs : List ChatId) (acc : List Delivery × Nat),
      (subs.foldl (fun acc2 c =>
          (acc2.1 ++ [⟨m, c⟩], if send c m then acc2.2 + 1 else acc2.2)) acc).1
        = acc.1 ++ subs.map (fun c => (⟨m, c⟩ : Delivery))
  | [], acc => by simp
  | c :: rest, acc => by
    rw [List.foldl_cons, sendLoop_inner_fst send m rest]
    simp

/-- Helper: the attempts recorded by the full delivery loop are the
message × subscriber product, in order, independent of send outcomes. -/
theorem sendLoop_fst (send : ChatId → String → Bool) (msgs : List String)
    (subs : List ChatId) :
    (sendLoop send msgs subs).1
      = msgs.flatMap (fun m => subs.map (fun c => (⟨m, c⟩ : Delivery))) := by
  suffices h : ∀ (ms : List String) (acc : List Delivery × Nat),
      (ms.foldl (fun acc2 m => subs.foldl (fun acc3 c =>
          (acc3.1 ++ [⟨m, c⟩], if send c m then acc3.2 + 1 else acc3.2)) acc2) acc).1
        = acc.1 ++ ms.flatMap (fun m => subs.map (fun c => (⟨m, c⟩ : Delivery))) by
    simpa [sendLoop] using h msgs ([], 0)
  intro ms
  induction ms with
  | nil => intro acc; simp
  | cons m rest ih =>
    intro acc
    rw [List.foldl_cons, ih, sendLoop_inner_fst send m subs]
    simp

/-- C5: in a cycle whose backend queries all succeed, the dispatcher
attempts exactly one delivery per (notification, subscriber) pair — `N`
attempts per notification when there are `N` current subscribers — and
the attempted calls are the same whatever deliveries fail: a failing
send is caught and aborts neither the remaining subscribers nor the
remaining notifications. -/
theorem c5_delivery_fanout (now last : LocalMinutes) (co uo : List Order)
    (subs : List ChatId) (send send' : ChatId → String → Bool) :
    (check_database_changes now last ⟨.ok co, .ok (), .ok (), .ok uo⟩ subs send).attempts
        = (co.map changedOrderMessage ++ urgentNotifications uo now).flatMap
            (fun m => subs.map (fun c => (⟨m, c⟩ : Delivery))) ∧
    (check_database_changes now last ⟨.ok co, .ok (), .ok (), .ok uo⟩ subs
          send).attempts.length
        = (co.map changedOrderMessage ++ urgentNotifications uo now).length
            * subs.length ∧
    (check_database_changes now last ⟨.ok co, .ok (), .ok (), .ok uo⟩ subs send).attempts
        = (check_database_changes now last ⟨.ok co, .ok (), .ok (), .ok uo⟩ subs
            send').attempts := by
  have ha : (check_database_changes now last ⟨.ok co, .ok (), .ok (), .ok uo⟩ subs
        send).attempts
      = (sendLoop send (co.map changedOrderMessage ++ urgentNotifications uo now)
          subs).1 := rfl
  have ha' : (check_database_changes now last ⟨.ok co, .ok (), .ok (), .ok uo⟩ subs
        send').attempts
      = (sendLoop send' (co.map changedOrderMessage ++ urgentNotifications uo now)
          subs).1 := rfl
  refine ⟨?_, ?_, ?_⟩
  · rw [ha, sendLoop_fst]
  · rw [ha, sendLoop_fst]
    simp only [List.length_flatMap, List.map_append, List.sum_append, Function.comp_def,
      List.length_map, List.map_const']
    simp [List.sum_replicate, mul_comm]
    ring
  · rw [ha, sendLoop_fst, ha', sendLoop_fst]

/-- C3: over the urgency query of the dispatcher (non-terminal orders
with a set ETA), one reminder is generated for an order exactly when its
days-until value is one of 3, 2, 1, 0 — an order five days out, or any
overdue order, yields nothing — and the wording is selected by
`days_left`: 0 the "due today" form, 1 the "due tomorrow" form, 2 and 3
the "due in N days" form. -/
theorem c3_urgency_reminders (orders : List Order) (now : LocalMinutes) (o : Order) :
    urgentNotifications (queryNonTerminalWithEta orders) now
      = orders.filterMap (fun order =>
          match order.eta_date with
          | none => none
          | some eta =>
            if order.status ≠ "Completed" ∧ order.status ≠ "Cancelled" ∧ eta.raw ≠ ""
            then
              match eta.parsed with
              | none => none
              | some t =>
                let days_left : Int := (dateOf t : Int) - (dateOf now : Int)
                if days_left = 3 ∨ days_left = 2 ∨ days_left = 1 ∨ days_left = 0 then
                  some (reminderMessage order days_left)
                else none
            else none) ∧
    reminderMessage o 0
      = "⏰ **СЕГОДНЯ ETA!**\nЗаказ " ++ o.order_number.getD "N/A" ++ " ("
          ++ o.client_name.getD "N/A" ++ ") должен прибыть сегодня!" ∧
    reminderMessage o 1
      = "⚠️ **ЗАВТРА ETA!**\nЗаказ " ++ o.order_number.getD "N/A" ++ " ("
          ++ o.client_name.getD "N/A" ++ ") прибывает завтра!" ∧
    reminderMessage o 2
      = "📅 **СКОРО ETA (2 дня)**\nЗаказ " ++ o.order_number.getD "N/A" ++ " ("
          ++ o.client_name.getD "N/A" ++ ")" ∧
    reminderMessage o 3
      = "📅 **СКОРО ETA (3 дня)**\nЗаказ " ++ o.order_number.getD "N/A" ++ " ("
          ++ o.client_name.getD "N/A" ++ ")" := by
  refine ⟨?_, rfl, rfl, rfl, rfl⟩
  rw [urgentNotifications, queryNonTerminalWithEta, List.filterMap_filter]
  congr 1
  funext order
  rcases he : order.eta_date with _ | eta
  · simp [he]
  · by_cases h1 : order.status = "Completed" <;>
      by_cases h2 : order.status = "Cancelled" <;>
        by_cases h3 : eta.raw = "" <;>
          simp [he, h1, h2, h3]

/-- Helper: every record selected by the `/urgent` loop carries
`0 ≤ days_left ≤ 3`. -/
theorem urgentSelect_bounds (l : List Order) (now : LocalMinutes) :
    ∀ p ∈ urgentSelect l now, 0 ≤ p.2 ∧ p.2 ≤ 3 := by
  intro p hp
  simp only [urgentSelect, List.mem_filterMap] at hp
  obtain ⟨o, -, ho⟩ := hp
  rcases he : o.eta_date with _ | eta
  · rw [he] at ho
    simp at ho
  · rw [he] at ho
    dsimp only at ho
    split at ho
    · simp at ho
    · split at ho
      · simp at ho
      · split at ho
        · obtain rfl := Option.some.inj ho
          assumption
        · simp at ho

/-- C1 fails on the code: the `/report` urgent computation keeps a
Completed order due tomorrow, although the claim excludes terminal
statuses entirely; and a non-terminal order one day overdue — excluded by
the claim from nothing, and placed by it in the `overdue` group and in
the group union — lands in no group of either urgency computation (the
code builds no overdue group). -/
theorem c1_counterexample :
    (orderCompletedTomorrow.status = "Completed" ∧
      reportUrgentOrders [orderCompletedTomorrow] now0 = [orderCompletedTomorrow]) ∧
    (orderOverdueYesterday.status ≠ "Completed" ∧
      orderOverdueYesterday.status ≠ "Cancelled" ∧
      calculate_days_until orderOverdueYesterday.eta_date now0 = some (-1) ∧
      urgentSelect [orderOverdueYesterday] now0 = [] ∧
      reportUrgentOrders [orderOverdueYesterday] now0 = []) := by decide

/-- C1 (amended): the urgency classification implemented by `/urgent`
selects exactly the queried (non-terminal, ETA-bearing) records whose
parseable ETA lies 0 to 3 days ahead; over that selection the display
groups `dueToday` (`days_left = 0`) and `dueSoon` (`0 < days_left ≤ 3`)
are disjoint and together are exactly the selection; records with no or
unparseable due date are excluded, and overdue records are excluded
rather than grouped (the `/report` variant additionally keeps terminal
statuses, as the counterexample shows). -/
theorem c1_urgent_selection_partition (orders : List Order) (now : LocalMinutes) :
    urgentSelect (queryNonTerminalWithEta orders) now
      = orders.filterMap (fun order =>
          match order.eta_date with
          | none => none
          | some eta =>
            if order.status ≠ "Completed" ∧ order.status ≠ "Cancelled" ∧ eta.raw ≠ ""
            then
              match eta.parsed with
              | none => none
              | some t =>
                let days_left : Int := (dateOf t : Int) - (dateOf now : Int)
                if 0 ≤ days_left ∧ days_left ≤ 3 then some (order, days_left) else none
            else none) ∧
    List.Perm
      (dueTodayGroup (urgentSelect (queryNonTerminalWithEta orders) now)
        ++ dueSoonGroup (urgentSelect (queryNonTerminalWithEta orders) now))
      (urgentSelect (queryNonTerminalWithEta orders) now) ∧
    List.Disjoint
      (dueTodayGroup (urgentSelect (queryNonTerminalWithEta orders) now))
      (dueSoonGroup (urgentSelect (queryNonTerminalWithEta orders) now)) := by
  refine ⟨?_, ?_, ?_⟩
  · rw [urgentSelect, queryNonTerminalWithEta, List.filterMap_filter]
    congr 1
    funext order
    rcases he : order.eta_date with _ | eta
    · simp [he]
    · by_cases h1 : order.status = "Completed" <;>
        by_cases h2 : order.status = "Cancelled" <;>
          by_cases h3 : eta.raw = "" <;>
            simp [he, h1, h2, h3]
  · have hcongr : dueSoonGroup (urgentSelect (queryNonTerminalWithEta orders) now)
        = (urgentSelect (queryNonTerminalWithEta orders) now).filter
            (fun p => !(decide (p.2 = 0))) := by
      rw [dueSoonGroup]
      refine List.filter_congr ?_
      intro p hp
      have hbp := urgentSelect_bounds (queryNonTerminalWithEta orders) now p hp
      by_cases h0 : p.2 = 0
      · simp [h0]
      · simp [h0]
        omega
    rw [dueTodayGroup, hcongr]
    exact List.filter_append_perm _ _
  · intro p hp hq
    simp only [dueTodayGroup, List.mem_filter, decide_eq_true_eq] at hp
    simp only [dueSoonGroup, List.mem_filter, decide_eq_true_eq] at hq
    omega

/-- Witness for `c2_watermark_advance`: with all queries succeeding and
every delivery failing the watermark still advances to `now0`; with the
orders query raising it stays at 7 and nothing is attempted. -/
theorem c2_witness :
    (check_database_changes now0 7 ⟨.ok [orderNoEta], .ok (), .ok (), .ok []⟩ [5]
        (fun _ _ => false)).last_check_time = now0 ∧
    (check_database_changes now0 7 ⟨.error (), .ok (), .ok (), .ok []⟩ [5]
        (fun _ _ => false)).last_check_time = 7 ∧
    (check_database_changes now0 7 ⟨.error (), .ok (), .ok (), .ok []⟩ [5]
        (fun _ _ => false)).attempts = [] := by
  have h1 := c2_watermark_advance now0 7 ⟨.ok [orderNoEta], .ok (), .ok (), .ok []⟩ [5]
    (fun _ _ => false)
  have h2 := c2_watermark_advance now0 7 ⟨.error (), .ok (), .ok (), .ok []⟩ [5]
    (fun _ _ => false)
  refine ⟨?_, ?_, h2.2 (by decide)⟩
  · simpa [CycleQueries.allOk, QueryResult.succeeded] using h1.1
  · simpa [CycleQueries.allOk, QueryResult.succeeded] using h2.1

end LogisticsBot
